import Mathlib

/-!
Shallow embedding of the Databend Flight SQL protocol gateway
(`src/query/service/src/servers/flight_sql/flight_sql_service/service.rs`)
and the federated query matcher (`src/query/service/src/servers/federated_helper.rs`).

Modelling conventions:
- Machine bytes are `Nat` values (`< 256` where it matters); byte buffers are `List Nat`.
- A `Uuid` is modelled by its 16 raw bytes (`List Nat`, length 16, entries `< 256`),
  matching `uuid::Uuid`'s byte representation (`as_bytes`).
- The prost protobuf wire format (varints, tagged fields, the `Any` envelope and the
  `FetchResults` message) is embedded at byte level, following prost's decode semantics:
  unknown fields are skipped, known fields with a wrong wire type are decode errors,
  string fields are validated as UTF-8, truncated input is a decode error.
- gRPC statuses are a code plus a message.  Rust `.unwrap()` panics are made explicit
  through the `Outcome` type.
- External collaborators (authenticator, planner, executor, schema serializer) are
  function parameters, as the spec treats them as interfaces only.
-/

set_option autoImplicit false

namespace FlightSql

/-- gRPC status codes used by the service. -/
inductive StatusCode where
  | invalidArgument
  | internal
  | notFound
  | unimplemented
  | unauthenticated
  deriving DecidableEq

/-- A tonic `Status`: a code and a human-readable message. -/
structure Status where
  code : StatusCode
  message : String
  deriving DecidableEq

/-- Result of a Rust expression that may panic (`.unwrap()`), return an error
`Status`, or succeed. -/
inductive Outcome (α : Type) where
  | panics
  | fails (s : Status)
  | ok (a : α)
  deriving DecidableEq

/-- Modelled from the spec: a `Session` is an opaque authenticated principal whose
`get_id` (not under `src/`) yields the unique token in string form. -/
structure Session where
  id : String
  deriving DecidableEq

/-- The token-keyed session store (`self.sessions`, a concurrent map used with
per-key atomicity; modelled as an association list). -/
abbrev Sessions : Type := List (String × Session)

/-- Session-store lookup: first entry with the given token. -/
def sessLookup : Sessions → String → Option Session
  | [], _ => none
  | (k, s) :: rest, tok => if k = tok then some s else sessLookup rest tok

/-- Session-store insert (`DashMap::insert` replaces any entry under the key). -/
def sessInsert (store : Sessions) (tok : String) (s : Session) : Sessions :=
  (tok, s) :: store.filter (fun p => decide (p.1 ≠ tok))

/-- The handle-keyed prepared statement registry (`self.statements`); keys are the
16 raw bytes of the handle `Uuid`. -/
abbrev Registry (E : Type) : Type := List (List Nat × E)

/-- Registry lookup (`DashMap::get`). -/
def regGet {E : Type} : Registry E → List Nat → Option E
  | [], _ => none
  | (k, e) :: rest, h => if k = h then some e else regGet rest h

/-- Registry removal (`DashMap::remove`): deletes every entry under the key,
a no-op when the key is absent. -/
def regRemove {E : Type} : Registry E → List Nat → Registry E
  | [], _ => []
  | (k, e) :: rest, h => if k = h then regRemove rest h else (k, e) :: regRemove rest h

/-- Registry insert (`DashMap::insert` replaces any entry under the key). -/
def regInsert {E : Type} (r : Registry E) (h : List Nat) (e : E) : Registry E :=
  (h, e) :: regRemove r h

/-- Debug rendering of a byte vector, as Rust's `{:?}` on `Vec<u8>`. -/
def natListRepr (l : List Nat) : String :=
  "[" ++ String.intercalate ", " (l.map toString) ++ "]"

/-- ASCII bytes of a string constant (used only on pure-ASCII literals). -/
def strBytes (s : String) : List Nat :=
  s.data.map Char.toNat

/-! ## UTF-8 validation (`std::str::from_utf8` / prost string decoding) -/

/-- Is `b` a UTF-8 continuation byte (`0x80..=0xBF`)? -/
def utf8Cont (b : Nat) : Bool :=
  128 ≤ b && b ≤ 191

/-- Check the `k` continuation bytes of a multi-byte sequence at the head of `r`:
the first must lie in `lo..hi` (the leading byte's class restricts it), the
rest in `0x80..0xBF`.  `false` when `r` is too short. -/
def utf8TailOk (k lo hi : Nat) (r : List Nat) : Bool :=
  match k, r with
  | 1, c :: _ => lo ≤ c && c ≤ hi
  | 2, c :: d :: _ => (lo ≤ c && c ≤ hi) && utf8Cont d
  | 3, c :: d :: e :: _ => (lo ≤ c && c ≤ hi) && utf8Cont d && utf8Cont e
  | _, _ => false

/-- UTF-8 validity of a byte sequence, following the standard table (including
the surrogate and overlong exclusions used by `core::str`); the fuel is a
bound on the number of encoded characters, each step consuming at least one
byte and one unit of fuel. -/
def validUtf8Aux : Nat → List Nat → Bool
  | _, [] => true
  | 0, _ :: _ => false
  | fuel + 1, b :: r =>
    if b ≤ 127 then validUtf8Aux fuel r
    else if 194 ≤ b && b ≤ 223 then utf8TailOk 1 128 191 r && validUtf8Aux fuel (r.drop 1)
    else if b = 224 then utf8TailOk 2 160 191 r && validUtf8Aux fuel (r.drop 2)
    else if (225 ≤ b && b ≤ 236) || b = 238 || b = 239 then
      utf8TailOk 2 128 191 r && validUtf8Aux fuel (r.drop 2)
    else if b = 237 then utf8TailOk 2 128 159 r && validUtf8Aux fuel (r.drop 2)
    else if b = 240 then utf8TailOk 3 144 191 r && validUtf8Aux fuel (r.drop 3)
    else if 241 ≤ b && b ≤ 243 then utf8TailOk 3 128 191 r && validUtf8Aux fuel (r.drop 3)
    else if b = 244 then utf8TailOk 3 128 143 r && validUtf8Aux fuel (r.drop 3)
    else false

/-- UTF-8 validity of a whole byte sequence (`core::str`'s `run_utf8_validation`). -/
def validUtf8 (l : List Nat) : Bool :=
  validUtf8Aux (l.length + 1) l

/-- `std::str::from_utf8`: succeeds exactly on valid UTF-8 (the "string" is kept
as its byte sequence; `uuid` parsing works on those bytes, as
`Uuid::try_parse` delegates to `try_parse_ascii` on the string's bytes). -/
def fromUtf8? (bs : List Nat) : Option (List Nat) :=
  if validUtf8 bs then some bs else none

/-! ## UUID text format (`uuid` crate) -/

/-- Lowercase hex digit byte for a value `< 16` (`uuid` formats in lowercase). -/
def hexDigitByte (v : Nat) : Nat :=
  if v < 10 then 48 + v else 87 + v

/-- Two lowercase hex digit bytes of a byte value. -/
def byteHex (b : Nat) : List Nat :=
  [hexDigitByte (b / 16), hexDigitByte (b % 16)]

/-- Hex rendering of a byte sequence. -/
def hexBytes (bs : List Nat) : List Nat :=
  bs.flatMap byteHex

/-- `Uuid::to_string` (hyphenated form, bytes grouped 4-2-2-2-6): the ASCII bytes
of the textual handle embedded in a ticket.  `45` is the hyphen. -/
def uuidToString (u : List Nat) : List Nat :=
  hexBytes (u.take 4) ++
    45 :: (hexBytes ((u.drop 4).take 2) ++
      45 :: (hexBytes ((u.drop 6).take 2) ++
        45 :: (hexBytes ((u.drop 8).take 2) ++
          45 :: hexBytes (u.drop 10))))

/-- Value of an ASCII hex digit byte (the `uuid` parser accepts both cases). -/
def hexVal (c : Nat) : Option Nat :=
  if 48 ≤ c && c ≤ 57 then some (c - 48)
  else if 97 ≤ c && c ≤ 102 then some (c - 87)
  else if 65 ≤ c && c ≤ 70 then some (c - 55)
  else none

/-- Parse `n` bytes (2·`n` hex digits), returning them and the rest of the input. -/
def parseHexPairs : Nat → List Nat → Option (List Nat × List Nat)
  | 0, bs => some ([], bs)
  | n + 1, c1 :: c2 :: bs =>
    match hexVal c1, hexVal c2 with
    | some hi, some lo =>
      match parseHexPairs n bs with
      | some (out, rest) => some ((16 * hi + lo) :: out, rest)
      | none => none
    | _, _ => none
  | _ + 1, _ => none

/-- Expect a hyphen byte. -/
def expectDash : List Nat → Option (List Nat)
  | 45 :: r => some r
  | _ => none

/-- `uuid` hyphenated parser (8-4-4-4-12 hex digits separated by hyphens).
The crate checks the hyphen positions and decodes the 32 hex digits; this
parser accepts and rejects exactly the same 36-byte inputs and produces the
same 16 bytes. -/
def parseHyphenated (bs : List Nat) : Option (List Nat) :=
  (parseHexPairs 4 bs).bind fun p1 =>
    (expectDash p1.2).bind fun r1 =>
      (parseHexPairs 2 r1).bind fun p2 =>
        (expectDash p2.2).bind fun r2 =>
          (parseHexPairs 2 r2).bind fun p3 =>
            (expectDash p3.2).bind fun r3 =>
              (parseHexPairs 2 r3).bind fun p4 =>
                (expectDash p4.2).bind fun r4 =>
                  match parseHexPairs 6 r4 with
                  | some (g5, []) => some (p1.1 ++ (p2.1 ++ (p3.1 ++ (p4.1 ++ g5))))
                  | _ => none

/-- `uuid` simple parser: 32 hex digits, no separators. -/
def parseSimple (bs : List Nat) : Option (List Nat) :=
  match parseHexPairs 16 bs with
  | some (out, []) => some out
  | _ => none

/-- `Uuid::try_parse` (via `try_parse_ascii` on the string's bytes): dispatches on
the input length to the simple (32), hyphenated (36), braced (38) or URN (45)
format, and fails with an invalid-length error otherwise.  Error messages
abbreviate the crate's `Display` output. -/
def uuidTryParse (bs : List Nat) : Except String (List Nat) :=
  if bs.length = 32 then
    match parseSimple bs with
    | some u => .ok u
    | none => .error "invalid character"
  else if bs.length = 36 then
    match parseHyphenated bs with
    | some u => .ok u
    | none => .error "invalid character"
  else if bs.length = 38 && decide (bs.take 1 = [123]) && decide (bs.drop 37 = [125]) then
    match parseHyphenated ((bs.drop 1).take 36) with
    | some u => .ok u
    | none => .error "invalid character"
  else if bs.length = 45 && decide (bs.take 9 = strBytes "urn:uuid:") then
    match parseHyphenated (bs.drop 9) with
    | some u => .ok u
    | none => .error "invalid character"
  else .error "invalid length"

/-- `Uuid::from_slice`: exactly 16 raw bytes, otherwise an error. -/
def uuidFromSlice (bs : List Nat) : Except String (List Nat) :=
  if bs.length = 16 then .ok bs else .error "invalid length"

/-! ## prost wire format -/

/-- LEB128 varint decoding with prost's 10-byte bound (u64). Returns the value
and the remaining bytes; `none` is a decode error (truncated or oversized). -/
def decodeVarintAux : Nat → List Nat → Nat → Nat → Option (Nat × List Nat)
  | 0, _, _, _ => none
  | _ + 1, [], _, _ => none
  | fuel + 1, b :: r, shift, acc =>
    if b % 256 < 128 then some (acc + (b % 256) * 2 ^ shift, r)
    else decodeVarintAux fuel r (shift + 7) (acc + (b % 256 - 128) * 2 ^ shift)

/-- prost `decode_varint`. -/
def decodeVarint (bs : List Nat) : Option (Nat × List Nat) :=
  decodeVarintAux 10 bs 0 0

/-- LEB128 varint encoding (u64 varints need at most 10 bytes). -/
def encodeVarintAux : Nat → Nat → List Nat
  | 0, _ => []
  | fuel + 1, n => if n < 128 then [n] else (n % 128 + 128) :: encodeVarintAux fuel (n / 128)

/-- prost `encode_varint`. -/
def encodeVarint (n : Nat) : List Nat :=
  encodeVarintAux 10 n

/-- prost `decode_key`: a varint key holding the field tag and wire type;
wire types `6`/`7` and tag `0` are decode errors, as is a key above `u32::MAX`. -/
def decodeKey (bs : List Nat) : Option (Nat × Nat × List Nat) :=
  match decodeVarint bs with
  | none => none
  | some (key, rest) =>
    if key > 4294967295 then none
    else
      let wt := key % 8
      let tag := key / 8
      if 6 ≤ wt then none
      else if tag = 0 then none
      else some (tag, wt, rest)

/-- Read one length-delimited field payload (varint length, then that many bytes). -/
def readLenDelim (bs : List Nat) : Option (List Nat × List Nat) :=
  match decodeVarint bs with
  | none => none
  | some (n, rest) =>
    if n ≤ rest.length then some (rest.take n, rest.drop n) else none

/-- prost `skip_field`: skips an unknown field of the given wire type; for a
group start (`3`) it recursively consumes fields until the group end (`4`); a
bare group end is a decode error. -/
def skipFieldF : Nat → Nat → List Nat → Option (List Nat)
  | 0, _, _ => none
  | fuel + 1, wt, bs =>
    if wt = 0 then (decodeVarint bs).map Prod.snd
    else if wt = 1 then (if 8 ≤ bs.length then some (bs.drop 8) else none)
    else if wt = 2 then (readLenDelim bs).map Prod.snd
    else if wt = 3 then
      match decodeKey bs with
      | none => none
      | some (_, wt2, rest) =>
        if wt2 = 4 then some rest
        else
          match skipFieldF fuel wt2 rest with
          | none => none
          | some rest2 => skipFieldF fuel 3 rest2
    else if wt = 5 then (if 4 ≤ bs.length then some (bs.drop 4) else none)
    else none

/-- The protobuf `Any` envelope: `type_url` (field 1, string) and `value`
(field 2, bytes). -/
structure AnyMsg where
  type_url : List Nat
  value : List Nat
  deriving DecidableEq

/-- prost merge loop for `Any`: fold the fields of the buffer into the message,
skipping unknown fields; known fields require the length-delimited wire type
and (for the string field) UTF-8 validity. -/
def mergeAnyFields : Nat → List Nat → AnyMsg → Option AnyMsg
  | _, [], m => some m
  | 0, _ :: _, _ => none
  | fuel + 1, bs, m =>
    match decodeKey bs with
    | none => none
    | some (tag, wt, rest) =>
      if tag = 1 then
        if wt = 2 then
          match readLenDelim rest with
          | some (content, rest2) =>
            if validUtf8 content then mergeAnyFields fuel rest2 { m with type_url := content }
            else none
          | none => none
        else none
      else if tag = 2 then
        if wt = 2 then
          match readLenDelim rest with
          | some (content, rest2) => mergeAnyFields fuel rest2 { m with value := content }
          | none => none
        else none
      else
        match skipFieldF (fuel + 1) wt rest with
        | some rest2 => mergeAnyFields fuel rest2 m
        | none => none

/-- `Any::decode` over a whole buffer (starts from the default message). -/
def anyDecode (bs : List Nat) : Option AnyMsg :=
  mergeAnyFields (bs.length + 1) bs ⟨[], []⟩

/-- The `FetchResults` ticket message: `handle` (field 1, string). -/
structure FetchResults where
  handle : List Nat
  deriving DecidableEq

/-- prost merge loop for `FetchResults`. -/
def mergeFetchResultsFields : Nat → List Nat → FetchResults → Option FetchResults
  | _, [], m => some m
  | 0, _ :: _, _ => none
  | fuel + 1, bs, m =>
    match decodeKey bs with
    | none => none
    | some (tag, wt, rest) =>
      if tag = 1 then
        if wt = 2 then
          match readLenDelim rest with
          | some (content, rest2) =>
            if validUtf8 content then
              mergeFetchResultsFields fuel rest2 { m with handle := content }
            else none
          | none => none
        else none
      else
        match skipFieldF (fuel + 1) wt rest with
        | some rest2 => mergeFetchResultsFields fuel rest2 m
        | none => none

/-- `FetchResults::decode` over a whole buffer. -/
def fetchResultsDecode (bs : List Nat) : Option FetchResults :=
  mergeFetchResultsFields (bs.length + 1) bs ⟨[]⟩

/-- `FetchResults::type_url`: the stable type tag registered for the ticket. -/
def fetchResultsTypeUrl : List Nat :=
  strBytes "type.googleapis.com/arrow.flight.protocol.sql.FetchResults"

/-- Encode a length-delimited field (tag, wire type 2, varint length, payload). -/
def encodeLenField (tag : Nat) (payload : List Nat) : List Nat :=
  encodeVarint (tag * 8 + 2) ++ encodeVarint payload.length ++ payload

/-- prost-derived `FetchResults::encode_to_vec` (string fields are skipped
when empty, the proto3 default). -/
def fetchResultsEncode (handle : List Nat) : List Nat :=
  if handle = [] then [] else encodeLenField 1 handle

/-- prost-derived `Any::encode_to_vec`. -/
def anyEncode (m : AnyMsg) : List Nat :=
  (if m.type_url = [] then [] else encodeLenField 1 m.type_url) ++
    (if m.value = [] then [] else encodeLenField 2 m.value)

/-- `Any::unpack::<FetchResults>` (arrow-flight `ProstMessageExt`): `Ok None` when
the type tag differs from `FetchResults`' registered type URL, an error when
the inner decode fails, otherwise the decoded message. -/
def anyUnpackFetchResults (m : AnyMsg) : Except String (Option FetchResults) :=
  if m.type_url = fetchResultsTypeUrl then
    match fetchResultsDecode m.value with
    | some fr => .ok (some fr)
    | none => .error "decode error"
  else .ok none

/-! ## The protocol dispatcher verbs -/

/-- Modelled from the spec: `status!` (the repository's status-wrapping macro, not
under `src/`) surfaces planner/executor/serialization failures as an internal
error wrapping the upstream message. -/
def statusBang (ctx : String) (e : String) : Status :=
  ⟨.internal, ctx ++ ": " ++ e⟩

/-- Modelled from the spec: `get_session` (not under `src/`) extracts the bearer
token from the request metadata and looks it up in the session store,
propagating missing or unknown tokens as an authentication error. -/
def get_session (sessions : Sessions) (tok : Option String) : Except Status Session :=
  match tok with
  | none => .error ⟨.unauthenticated, "missing authorization"⟩
  | some t =>
    match sessLookup sessions t with
    | some s => .ok s
    | none => .error ⟨.unauthenticated, "session not found"⟩

/-- The ticket `get_flight_info_prepared_statement` mints for a handle:
`FetchResults { handle: handle.to_string() }.as_any().encode_to_vec()`. -/
def mintTicket (handle : List Nat) : List Nat :=
  anyEncode ⟨fetchResultsTypeUrl, fetchResultsEncode (uuidToString handle)⟩

/-- The ticket-decoding prefix of `do_get_fallback`:
`Any::decode(&mut buf).unwrap()` (panics on a decode error), then
`any.unpack().unwrap().unwrap()` (panics on an unpack error or a mismatched
type tag), then `Uuid::try_parse(&fetch_results.handle)` (an internal-status
error mentioning the raw ticket bytes on failure). -/
def decodeTicketHandle (ticket : List Nat) : Outcome (List Nat) :=
  match anyDecode ticket with
  | none => .panics
  | some anyMsg =>
    match anyUnpackFetchResults anyMsg with
    | .error _ => .panics
    | .ok none => .panics
    | .ok (some fr) =>
      match uuidTryParse fr.handle with
      | .error e =>
        .fails ⟨.internal, "do_get_fallback Error decoding handle: " ++ e ++ " "
          ++ natListRepr ticket⟩
      | .ok h => .ok h

/-- `do_get_fallback`: session lookup (propagated with `?`), ticket decode,
registry lookup (`self.statements.get(&handle).unwrap()` panics when absent),
then plan execution via the external executor.  `E` is the registered
(plan, schema) entry type and `S` the produced stream type; the registry is
only read. -/
def do_get_fallback {E S : Type} (sessions : Sessions) (tok : Option String)
    (ticket : List Nat) (reg : Registry E)
    (execute_plan : Session → E → Except String S) : Outcome S :=
  match get_session sessions tok with
  | .error s => .fails s
  | .ok session =>
    match decodeTicketHandle ticket with
    | .panics => .panics
    | .fails s => .fails s
    | .ok handle =>
      match regGet reg handle with
      | none => .panics
      | some handle_plan =>
        match execute_plan session handle_plan with
        | .error e => .fails (statusBang "fail to execute" e)
        | .ok stream => .ok stream

/-- The flight-info response for a prepared statement: serialized schema, one
endpoint carrying the minted ticket and the fixed loopback location, and a
command-type descriptor with zero totals. -/
structure FlightInfo where
  schema : List Nat
  endpointTicket : List Nat
  locationUri : String
  descriptorIsCmd : Bool
  totalRecords : Int
  totalBytes : Int
  deriving DecidableEq

/-- `get_flight_info_prepared_statement`: the session lookup's result is bound to
`_session` and ignored; the handle is `Uuid::from_slice` of the command's raw
handle bytes (internal-status error on failure); the registry lookup panics
when the handle is absent; the entry's schema is serialized (internal-status
error on failure) after the ticket is minted. -/
def get_flight_info_prepared_statement {E SchemaT : Type}
    (sessions : Sessions) (tok : Option String)
    (prepared_statement_handle : List Nat) (reg : Registry E)
    (schemaOf : E → SchemaT)
    (serializeSchema : SchemaT → Except String (List Nat)) : Outcome FlightInfo :=
  let _session := get_session sessions tok
  match uuidFromSlice prepared_statement_handle with
  | .error e => .fails ⟨.internal, "Error decoding handle: " ++ e⟩
  | .ok handle =>
    match regGet reg handle with
    | none => .panics
    | some handle_plan =>
      let schema := schemaOf handle_plan
      let loc := "grpc+tcp://127.0.0.1"
      let ticket := mintTicket handle
      match serializeSchema schema with
      | .error e => .fails (statusBang "Unable to serialize schema" e)
      | .ok schema_bytes =>
        .ok { schema := schema_bytes, endpointTicket := ticket, locationUri := loc,
              descriptorIsCmd := true, totalRecords := 0, totalBytes := 0 }

/-- The `CreatePreparedStatement` action response: the handle as raw bytes
(`handle.as_bytes().to_vec()`), the serialized dataset schema, and an empty
parameter schema placeholder. -/
structure CreatePreparedStatementResult where
  prepared_statement_handle : List Nat
  dataset_schema : List Nat
  parameter_schema : List Nat
  deriving DecidableEq

/-- `do_action_create_prepared_statement`: session lookup (propagated with `?`),
a fresh handle (`Uuid::new_v4`, supplied as a parameter since randomness is
external), planning via the external planner (internal-status error wrapping
the planner's message on failure), registry insertion, then schema
serialization (internal-status error on failure; note the insertion has
already happened).  Returns the RPC result paired with the updated registry. -/
def do_action_create_prepared_statement {E SchemaT : Type}
    (sessions : Sessions) (tok : Option String) (handle : List Nat)
    (plan_sql : Session → String → Except String E) (sql : String)
    (schemaOf : E → SchemaT)
    (serializeSchema : SchemaT → Except String (List Nat))
    (reg : Registry E) : Except Status CreatePreparedStatementResult × Registry E :=
  match get_session sessions tok with
  | .error s => (.error s, reg)
  | .ok session =>
    match plan_sql session sql with
    | .error e => (.error (statusBang "Error getting result schema" e), reg)
    | .ok plan =>
      let schema := schemaOf plan
      let reg2 := regInsert reg handle plan
      match serializeSchema schema with
      | .error e => (.error (statusBang "Unable to serialize schema" e), reg2)
      | .ok schema_bytes =>
        (.ok { prepared_statement_handle := handle, dataset_schema := schema_bytes,
               parameter_schema := [] }, reg2)

/-- The handle `do_action_close_prepared_statement` actually removes: the close
body runs only when the session check succeeds, interprets the request's
handle bytes as UTF-8 text (`std::str::from_utf8`), and parses that text with
`Uuid::try_parse`; on any failure the error is constructed and discarded and
nothing is removed. -/
def closeParsedHandle (sessions : Sessions) (tok : Option String)
    (prepared_statement_handle : List Nat) : Option (List Nat) :=
  if (get_session sessions tok).isOk then
    match fromUtf8? prepared_statement_handle with
    | some handleStr => (uuidTryParse handleStr).toOption
    | none => none
  else none

/-- `do_action_close_prepared_statement`: removes the parsed handle from the
registry when the session check and both parses succeed, and otherwise leaves
the registry alone; the RPC returns no payload and never surfaces an error.
The session store is only read. -/
def do_action_close_prepared_statement {E : Type} (sessions : Sessions)
    (tok : Option String) (prepared_statement_handle : List Nat)
    (reg : Registry E) : Registry E × Sessions :=
  match closeParsedHandle sessions tok prepared_statement_handle with
  | some handle => (regRemove reg handle, sessions)
  | none => (reg, sessions)

/-- One streamed handshake response message: protocol version 0 and the raw
token bytes as payload. -/
structure HandshakeMsg where
  protocolVersion : Nat
  payload : String
  deriving DecidableEq

/-- The handshake RPC response: the streamed messages and the response metadata. -/
structure HandshakeResp where
  stream : List (Except Status HandshakeMsg)
  metadata : List (String × String)

/-- `http::HeaderValue` validity, byte-wise on ASCII strings: visible characters,
space, and horizontal tab (`MetadataValue::try_from` rejects anything else). -/
def headerValueOk (s : String) : Bool :=
  s.data.all (fun c => c.toNat = 9 || (32 ≤ c.toNat && c.toNat ≠ 127))

/-- `do_handshake`: credentials are extracted from request metadata
(`get_user_password`, not under `src/`, supplied as its result; failures
become invalid-argument), verified by the external authenticator (failures
propagated), then the session's token is returned as a single-element stream
payload and as the `authorization: Bearer <token>` metadata entry (an
unparsable header value is an internal error, returned before the session is
stored); finally `(token, session)` is inserted into the session store. -/
def do_handshake (credentials : Except String (String × String))
    (auth_user_password : String → String → Except Status Session)
    (sessions : Sessions) : Except Status (HandshakeResp × Sessions) :=
  match credentials with
  | .error e => .error ⟨.invalidArgument, e⟩
  | .ok (user, password) =>
    match auth_user_password user password with
    | .error s => .error s
    | .ok session =>
      let token := session.id
      let result : HandshakeMsg := ⟨0, token⟩
      let str := "Bearer " ++ token
      let output := [Except.ok result]
      if headerValueOk str then
        .ok ({ stream := output, metadata := [("authorization", str)] },
             sessInsert sessions token session)
      else .error ⟨.internal, "authorization not parsable"⟩

/-! ## Unimplemented verbs -/

/-- The verbs the service leaves unimplemented (every handler in the trait
implementation that returns `Status::unimplemented`). -/
inductive UnimplVerb where
  | get_flight_info_statement
  | get_flight_info_catalogs
  | get_flight_info_schemas
  | get_flight_info_tables
  | get_flight_info_table_types
  | get_flight_info_sql_info
  | get_flight_info_primary_keys
  | get_flight_info_exported_keys
  | get_flight_info_imported_keys
  | get_flight_info_cross_reference
  | do_get_statement
  | do_get_prepared_statement
  | do_get_catalogs
  | do_get_schemas
  | do_get_tables
  | do_get_table_types
  | do_get_sql_info
  | do_get_primary_keys
  | do_get_exported_keys
  | do_get_imported_keys
  | do_get_cross_reference
  | do_put_statement_update
  | do_put_prepared_statement_query
  | do_put_prepared_statement_update
  deriving DecidableEq

/-- The status each unimplemented verb returns, message strings verbatim from the
source (note `get_flight_info_cross_reference`'s handler). -/
def unimplResponse : UnimplVerb → Status
  | .get_flight_info_statement =>
    ⟨.unimplemented, "get_flight_info_statement not implemented"⟩
  | .get_flight_info_catalogs =>
    ⟨.unimplemented, "get_flight_info_catalogs not implemented"⟩
  | .get_flight_info_schemas =>
    ⟨.unimplemented, "get_flight_info_schemas not implemented"⟩
  | .get_flight_info_tables =>
    ⟨.unimplemented, "get_flight_info_tables not implemented"⟩
  | .get_flight_info_table_types =>
    ⟨.unimplemented, "get_flight_info_table_types not implemented"⟩
  | .get_flight_info_sql_info =>
    ⟨.unimplemented, "get_flight_info_sql_info not implemented"⟩
  | .get_flight_info_primary_keys =>
    ⟨.unimplemented, "get_flight_info_primary_keys not implemented"⟩
  | .get_flight_info_exported_keys =>
    ⟨.unimplemented, "get_flight_info_exported_keys not implemented"⟩
  | .get_flight_info_imported_keys =>
    ⟨.unimplemented, "get_flight_info_imported_keys not implemented"⟩
  | .get_flight_info_cross_reference =>
    ⟨.unimplemented, "get_flight_info_imported_keys not implemented"⟩
  | .do_get_statement => ⟨.unimplemented, "do_get_statement not implemented"⟩
  | .do_get_prepared_statement =>
    ⟨.unimplemented, "do_get_prepared_statement not implemented"⟩
  | .do_get_catalogs => ⟨.unimplemented, "do_get_catalogs not implemented"⟩
  | .do_get_schemas => ⟨.unimplemented, "do_get_schemas not implemented"⟩
  | .do_get_tables => ⟨.unimplemented, "do_get_tables not implemented"⟩
  | .do_get_table_types => ⟨.unimplemented, "do_get_table_types not implemented"⟩
  | .do_get_sql_info => ⟨.unimplemented, "do_get_sql_info not implemented"⟩
  | .do_get_primary_keys => ⟨.unimplemented, "do_get_primary_keys not implemented"⟩
  | .do_get_exported_keys => ⟨.unimplemented, "do_get_exported_keys not implemented"⟩
  | .do_get_imported_keys => ⟨.unimplemented, "do_get_imported_keys not implemented"⟩
  | .do_get_cross_reference =>
    ⟨.unimplemented, "do_get_cross_reference not implemented"⟩
  | .do_put_statement_update =>
    ⟨.unimplemented, "do_put_statement_update not implemented"⟩
  | .do_put_prepared_statement_query =>
    ⟨.unimplemented, "do_put_prepared_statement_query not implemented"⟩
  | .do_put_prepared_statement_update =>
    ⟨.unimplemented, "do_put_prepared_statement_update not implemented"⟩

/-- Each verb's own name (the trait method's name in the source). -/
def verbName : UnimplVerb → String
  | .get_flight_info_statement => "get_flight_info_statement"
  | .get_flight_info_catalogs => "get_flight_info_catalogs"
  | .get_flight_info_schemas => "get_flight_info_schemas"
  | .get_flight_info_tables => "get_flight_info_tables"
  | .get_flight_info_table_types => "get_flight_info_table_types"
  | .get_flight_info_sql_info => "get_flight_info_sql_info"
  | .get_flight_info_primary_keys => "get_flight_info_primary_keys"
  | .get_flight_info_exported_keys => "get_flight_info_exported_keys"
  | .get_flight_info_imported_keys => "get_flight_info_imported_keys"
  | .get_flight_info_cross_reference => "get_flight_info_cross_reference"
  | .do_get_statement => "do_get_statement"
  | .do_get_prepared_statement => "do_get_prepared_statement"
  | .do_get_catalogs => "do_get_catalogs"
  | .do_get_schemas => "do_get_schemas"
  | .do_get_tables => "do_get_tables"
  | .do_get_table_types => "do_get_table_types"
  | .do_get_sql_info => "do_get_sql_info"
  | .do_get_primary_keys => "do_get_primary_keys"
  | .do_get_exported_keys => "do_get_exported_keys"
  | .do_get_imported_keys => "do_get_imported_keys"
  | .do_get_cross_reference => "do_get_cross_reference"
  | .do_put_statement_update => "do_put_statement_update"
  | .do_put_prepared_statement_query => "do_put_prepared_statement_query"
  | .do_put_prepared_statement_update => "do_put_prepared_statement_update"

/-- Does `needle` start `hay`? -/
def leadsWith : List Char → List Char → Bool
  | [], _ => true
  | _ :: _, [] => false
  | a :: as, b :: bs => a == b && leadsWith as bs

/-- Substring containment on strings. -/
def containsSub (needle hay : String) : Bool :=
  (List.range (hay.data.length + 1)).any (fun i => leadsWith needle.data (hay.data.drop i))

end FlightSql

namespace Federated

/-- `FederatedHelper::block_match_rule` (`federated_helper.rs`): walk the rules in
order and return, for the first rule whose compiled pattern matches the query,
its canned result — or an empty schema and empty chunk when the rule carries
no data; `none` when no rule matches.  Patterns are modelled by their
compiled match functions (`RegexSet::matches(query).matched(index)` holds
exactly when rule `index`'s regex matches `query`). -/
def block_match_rule {SchemaT ChunkT : Type} (emptySchema : SchemaT)
    (emptyChunk : ChunkT) (query : String) :
    List ((String → Bool) × Option (SchemaT × ChunkT)) → Option (SchemaT × ChunkT)
  | [] => none
  | (pat, data) :: rest =>
    if pat query then
      match data with
      | none => some (emptySchema, emptyChunk)
      | some (schema, chunk) => some (schema, chunk)
    else block_match_rule emptySchema emptyChunk query rest

/-- `FederatedHelper::lazy_block_match_rule`: as `block_match_rule`, but the first
matching rule's result is computed from the query text by its function
(`LazyBlockFunc`); a `none` from the function again yields the empty result. -/
def lazy_block_match_rule {SchemaT ChunkT : Type} (emptySchema : SchemaT)
    (emptyChunk : ChunkT) (query : String) :
    List ((String → Bool) × (String → Option (SchemaT × ChunkT))) →
      Option (SchemaT × ChunkT)
  | [] => none
  | (pat, func) :: rest =>
    if pat query then
      match func query with
      | none => some (emptySchema, emptyChunk)
      | some (schema, chunk) => some (schema, chunk)
    else lazy_block_match_rule emptySchema emptyChunk query rest

end Federated

namespace FlightSql

/-! ## Concrete instances used by closed theorems and witnesses -/

/-- A concrete one-entry session store: token "t". -/
def sessions0 : Sessions := [("t", ⟨"t"⟩)]

/-- The all-zero 16-byte handle. -/
def handle0 : List Nat := List.replicate 16 0

/-- A 16-byte handle with bytes 0..15. -/
def handle1 : List Nat := List.range 16

/-- A one-entry registry mapping `handle0` to the (abstract, here `Nat`) entry 5. -/
def reg0 : Registry Nat := [(handle0, 5)]

/-- An executor that returns the looked-up entry itself as the produced stream. -/
def exec0 : Session → Nat → Except String Nat := fun _ e => .ok e

/-- An envelope whose type tag is not the `FetchResults` type URL. -/
def wrongTagTicket : List Nat := anyEncode ⟨strBytes "type.googleapis.com/other", [1, 2, 3]⟩

end FlightSql

namespace FlightSql

/-! ## Registry lemmas -/

theorem regGet_regRemove_ne {E : Type} (r : Registry E) (h h' : List Nat)
    (hne : h' ≠ h) : regGet (regRemove r h) h' = regGet r h' := by
  induction r with
  | nil => rfl
  | cons p rest ih =>
    obtain ⟨k, e⟩ := p
    by_cases hk : k = h
    · subst hk
      simp [regRemove, regGet, hne.symm, ih]
    · by_cases hk' : k = h'
      · subst hk'
        simp [regRemove, regGet, hk, ih]
      · simp [regRemove, regGet, hk, hk', ih]

theorem regRemove_eq_self_of_none {E : Type} (r : Registry E) (h : List Nat)
    (hn : regGet r h = none) : regRemove r h = r := by
  induction r with
  | nil => rfl
  | cons p rest ih =>
    obtain ⟨k, e⟩ := p
    by_cases hk : k = h
    · simp [regGet, hk] at hn
    · simp [regGet, hk] at hn
      simp [regRemove, hk, ih hn]

/-! ## Claim theorems -/

/-- C1: the claim says `do_get_fallback` returns an invalid-argument
(malformed-ticket) error on every ticket not produced by the codec and never
panics.  The code instead calls `.unwrap()` on `Any::decode` and on
`Any::unpack`, so it panics on: empty/non-envelope bytes (the decoded default
envelope has an empty type tag, `unpack` yields `None`, the second `unwrap`
panics), a truncated varint (decode error, the first `unwrap` panics), and an
envelope with a mismatched type tag (`unpack` yields `None`). -/
theorem do_get_fallback_malformed_ticket_panics :
    do_get_fallback sessions0 (some "t") [] reg0 exec0 = Outcome.panics
    ∧ do_get_fallback sessions0 (some "t") [255] reg0 exec0 = Outcome.panics
    ∧ do_get_fallback sessions0 (some "t") wrongTagTicket reg0 exec0 = Outcome.panics := by
  exact ⟨by decide, by decide, by decide⟩

/-- C3: the claim says a fetch against a closed (or never-created) handle fails
with a not-found error.  The code instead calls
`self.statements.get(&handle).unwrap()`, which panics when the handle is
absent.  Conjuncts: closing `handle0` (by its textual form) empties the
registry; fetching the well-formed ticket for `handle0` against that emptied
registry panics; while the entry is still registered the same fetch succeeds
(and, the model being a pure function of the unchanged registry, does so on
every repetition). -/
theorem do_get_fallback_after_close_panics :
    (do_action_close_prepared_statement sessions0 (some "t") (uuidToString handle0) reg0).1
        = ([] : Registry Nat)
    ∧ do_get_fallback sessions0 (some "t") (mintTicket handle0) ([] : Registry Nat) exec0
        = Outcome.panics
    ∧ do_get_fallback sessions0 (some "t") (mintTicket handle0) reg0 exec0 = Outcome.ok 5 := by
  exact ⟨by decide, by decide, by decide⟩

/-- C4: the claim says closing with the `prepared_statement_handle` bytes exactly
as returned by `CreatePreparedStatement` removes the entry.  Create returns
the handle's 16 raw bytes (`handle.as_bytes().to_vec()`), but close parses
the request's handle bytes as UTF-8 *text* and `Uuid::try_parse` rejects any
16-byte string (the textual formats are 32/36/38/45 bytes long), so the
failed parse is discarded and nothing is removed.  Conjuncts: a successful
create returns the raw bytes `handle0` and registers the entry; closing with
exactly those bytes leaves the registry unchanged; the entry is still
present afterwards. -/
theorem close_with_created_handle_bytes_does_not_remove :
    (do_action_create_prepared_statement sessions0 (some "t") handle0
        (fun _ _ => Except.ok 5) "SELECT 1" (fun (e : Nat) => e)
        (fun _ => Except.ok []) ([] : Registry Nat))
      = (Except.ok ⟨handle0, [], []⟩, reg0)
    ∧ (do_action_close_prepared_statement sessions0 (some "t") handle0 reg0).1 = reg0
    ∧ regGet reg0 handle0 = some 5 := by
  refine ⟨?_, by decide, by decide⟩
  have : do_action_create_prepared_statement sessions0 (some "t") handle0
      (fun _ _ => Except.ok (5 : Nat)) "SELECT 1" (fun (e : Nat) => e)
      (fun _ => Except.ok []) ([] : Registry Nat)
      = (Except.ok ⟨handle0, [], []⟩, regInsert [] handle0 5) := rfl
  rw [this]
  have : regInsert ([] : Registry Nat) handle0 5 = reg0 := by decide
  rw [this]

/-- C5: the result of `get_flight_info_prepared_statement` does not depend on the
session lookup at all — the source binds `self.get_session(&request)` to
`_session` without `?` and never uses it, so any two requests carrying the
same command payload produce the same result regardless of whether their
session-token lookups succeed or fail. -/
theorem get_flight_info_prepared_statement_session_independent :
    ∀ {E SchemaT : Type} (sessions1 sessions2 : Sessions) (tok1 tok2 : Option String)
      (hb : List Nat) (reg : Registry E) (schemaOf : E → SchemaT)
      (serializeSchema : SchemaT → Except String (List Nat)),
    get_flight_info_prepared_statement sessions1 tok1 hb reg schemaOf serializeSchema
      = get_flight_info_prepared_statement sessions2 tok2 hb reg schemaOf serializeSchema := by
  intros
  rfl

/-- C6: the claim says every unimplemented verb's status message carries that
verb's own name.  The `get_flight_info_cross_reference` handler instead
returns the message "get_flight_info_imported_keys not implemented" (a
copy-paste of the `get_flight_info_imported_keys` handler), so its message
does not contain its own verb name and coincides with another verb's
message. -/
theorem cross_reference_unimplemented_wrong_verb_name :
    (unimplResponse .get_flight_info_cross_reference).code = StatusCode.unimplemented
    ∧ (unimplResponse .get_flight_info_cross_reference).message
        = "get_flight_info_imported_keys not implemented"
    ∧ containsSub (verbName .get_flight_info_cross_reference)
        (unimplResponse .get_flight_info_cross_reference).message = false
    ∧ unimplResponse .get_flight_info_cross_reference
        = unimplResponse .get_flight_info_imported_keys := by
  exact ⟨rfl, rfl, by decide, rfl⟩

/-- C7: when the external planner fails, `do_action_create_prepared_statement`
returns an internal error wrapping the planner's message and the registry is
unchanged — the `?` on the planning step returns before
`self.statements.insert(handle, plan)` runs, so creation is atomic. -/
theorem create_planner_failure_atomic :
    ∀ {E SchemaT : Type} (sessions : Sessions) (tok : Option String) (sess : Session)
      (handle : List Nat) (plan_sql : Session → String → Except String E) (sql : String)
      (schemaOf : E → SchemaT) (serializeSchema : SchemaT → Except String (List Nat))
      (reg : Registry E) (e : String),
    get_session sessions tok = .ok sess →
    plan_sql sess sql = .error e →
    do_action_create_prepared_statement sessions tok handle plan_sql sql schemaOf
        serializeSchema reg
      = (.error (statusBang "Error getting result schema" e), reg)
    ∧ (statusBang "Error getting result schema" e).code = StatusCode.internal := by
  intro E SchemaT sessions tok sess handle plan_sql sql schemaOf serializeSchema reg e hs hp
  refine ⟨?_, rfl⟩
  simp [do_action_create_prepared_statement, hs, hp]

/-- Witness for C7 at a concrete failing planner. -/
theorem create_planner_failure_atomic_witness :
    do_action_create_prepared_statement sessions0 (some "t") handle0
        (fun _ _ => Except.error "boom") "SELECT 1" (fun (e : Nat) => e)
        (fun _ => Except.ok []) ([] : Registry Nat)
      = (.error (statusBang "Error getting result schema" "boom"), ([] : Registry Nat)) :=
  (create_planner_failure_atomic sessions0 (some "t") ⟨"t"⟩ handle0
    (fun _ _ => Except.error "boom") "SELECT 1" (fun (e : Nat) => e)
    (fun _ => Except.ok []) [] "boom" rfl rfl).1

/-- C8: close is idempotent and frames the rest of the state.  The RPC returns no
payload and never surfaces an error (its return type is unit); the session
store is returned unchanged by every close; every registry entry under a
handle other than the one actually parsed-and-removed is unchanged; and when
the parsed handle is absent from the registry the whole registry is
unchanged (so re-closing a closed, or never-created, handle is a no-op). -/
theorem close_idempotent_and_frame :
    ∀ {E : Type} (sessions : Sessions) (tok : Option String) (hb : List Nat)
      (reg : Registry E),
    (do_action_close_prepared_statement sessions tok hb reg).2 = sessions
    ∧ (∀ h : List Nat, closeParsedHandle sessions tok hb ≠ some h →
        regGet (do_action_close_prepared_statement sessions tok hb reg).1 h = regGet reg h)
    ∧ (∀ h : List Nat, closeParsedHandle sessions tok hb = some h → regGet reg h = none →
        (do_action_close_prepared_statement sessions tok hb reg).1 = reg) := by
  intro E sessions tok hb reg
  unfold do_action_close_prepared_statement
  cases hc : closeParsedHandle sessions tok hb with
  | none => exact ⟨rfl, fun _ _ => rfl, fun h hh _ => by simp at hh⟩
  | some h0 =>
    refine ⟨rfl, ?_, ?_⟩
    · intro h hne
      have : h ≠ h0 := fun hh => hne (by rw [hh])
      exact regGet_regRemove_ne reg h0 h this
    · intro h hh hn
      have : h0 = h := by injection hh
      subst this
      exact regRemove_eq_self_of_none reg h0 hn

/-- Witness for C8: closing the textual form of `handle0` against an empty
registry leaves the empty registry and the session store unchanged, and an
unrelated handle's (absent) entry is untouched. -/
theorem close_idempotent_and_frame_witness :
    (do_action_close_prepared_statement sessions0 (some "t") (uuidToString handle0)
        ([] : Registry Nat)).2 = sessions0
    ∧ regGet (do_action_close_prepared_statement sessions0 (some "t")
        (uuidToString handle0) ([] : Registry Nat)).1 handle1 = regGet [] handle1
    ∧ (do_action_close_prepared_statement sessions0 (some "t") (uuidToString handle0)
        ([] : Registry Nat)).1 = ([] : Registry Nat) :=
  ⟨(close_idempotent_and_frame sessions0 (some "t") (uuidToString handle0) []).1,
   (close_idempotent_and_frame sessions0 (some "t") (uuidToString handle0) []).2.1
     handle1 (by decide),
   (close_idempotent_and_frame sessions0 (some "t") (uuidToString handle0) []).2.2
     handle0 (by decide) rfl⟩

/-- C9: on a handshake whose credentials the authenticator accepts (and whose
minted token is a representable header value, which the spec's textual tokens
always are), the response stream is exactly one message carrying the raw
token as payload, the response metadata's "authorization" entry is
"Bearer " followed by that same token, and the (token, session) pair is
inserted into the session store as part of producing the response. -/
theorem handshake_success_response :
    ∀ (user password : String) (auth_user_password : String → String → Except Status Session)
      (sessions : Sessions) (session : Session),
    auth_user_password user password = .ok session →
    headerValueOk ("Bearer " ++ session.id) = true →
    do_handshake (.ok (user, password)) auth_user_password sessions
      = .ok ({ stream := [Except.ok ⟨0, session.id⟩],
               metadata := [("authorization", "Bearer " ++ session.id)] },
             sessInsert sessions session.id session) := by
  intro user password auth sessions session hauth hvalid
  simp [do_handshake, hauth, hvalid]

/-- Witness for C9 at a concrete accepted handshake. -/
theorem handshake_success_response_witness :
    do_handshake (.ok ("root", "")) (fun _ _ => Except.ok ⟨"tok1"⟩) []
      = .ok ({ stream := [Except.ok ⟨0, "tok1"⟩],
               metadata := [("authorization", "Bearer " ++ "tok1")] },
             sessInsert [] "tok1" ⟨"tok1"⟩) :=
  handshake_success_response "root" "" (fun _ _ => Except.ok ⟨"tok1"⟩) [] ⟨"tok1"⟩
    rfl (by decide)

end FlightSql

namespace FlightSql

/-! ## Ticket round-trip lemmas (C2) -/

theorem hexVal_hexDigitByte (v : Nat) (hv : v < 16) :
    hexVal (hexDigitByte v) = some v := by
  interval_cases v <;> rfl

theorem parseHexPairs_hexBytes (bs : List Nat) (rest : List Nat)
    (hb : ∀ b ∈ bs, b < 256) :
    parseHexPairs bs.length (hexBytes bs ++ rest) = some (bs, rest) := by
  induction bs with
  | nil => rfl
  | cons b tl ih =>
    have hb0 : b < 256 := hb b (List.mem_cons_self _ _)
    have hhi : b / 16 < 16 := by omega
    have hlo : b % 16 < 16 := by omega
    have htl : ∀ x ∈ tl, x < 256 := fun x hx => hb x (List.mem_cons_of_mem _ hx)
    have hrec : 16 * (b / 16) + b % 16 = b := by omega
    simp only [hexBytes, List.flatMap_cons, byteHex, List.cons_append, List.nil_append,
      List.length_cons]
    simp only [parseHexPairs, hexVal_hexDigitByte _ hhi, hexVal_hexDigitByte _ hlo]
    simp only [hexBytes] at ih
    rw [ih htl]
    simp [hrec]

theorem parseHexPairs_of_len (n : Nat) (bs rest : List Nat) (hn : bs.length = n)
    (hb : ∀ b ∈ bs, b < 256) :
    parseHexPairs n (hexBytes bs ++ rest) = some (bs, rest) := by
  subst hn
  exact parseHexPairs_hexBytes bs rest hb

theorem hexBytes_length (bs : List Nat) : (hexBytes bs).length = 2 * bs.length := by
  induction bs with
  | nil => rfl
  | cons b tl ih =>
    simp only [hexBytes, List.flatMap_cons, byteHex, List.length_append, List.length_cons,
      List.length_nil] at *
    omega

theorem uuidToString_length (u : List Nat) (hu : u.length = 16) :
    (uuidToString u).length = 36 := by
  simp [uuidToString, hexBytes_length, hu]

theorem hexBytes_ascii (bs : List Nat) (hb : ∀ b ∈ bs, b < 256) :
    ∀ c ∈ hexBytes bs, c ≤ 127 := by
  intro c hc
  simp only [hexBytes, List.mem_flatMap] at hc
  obtain ⟨b, hbmem, hcb⟩ := hc
  have hb0 : b < 256 := hb b hbmem
  simp only [byteHex, List.mem_cons, List.not_mem_nil, or_false] at hcb
  rcases hcb with h | h <;> subst h <;> unfold hexDigitByte <;> split <;> omega

theorem uuidToString_ascii (u : List Nat) (hu : ∀ b ∈ u, b < 256) :
    ∀ c ∈ uuidToString u, c ≤ 127 := by
  intro c hc
  have s1 : ∀ b ∈ u.take 4, b < 256 := fun b hb => hu b (List.take_subset _ _ hb)
  have s2 : ∀ b ∈ (u.drop 4).take 2, b < 256 :=
    fun b hb => hu b (List.drop_subset _ _ (List.take_subset _ _ hb))
  have s3 : ∀ b ∈ (u.drop 6).take 2, b < 256 :=
    fun b hb => hu b (List.drop_subset _ _ (List.take_subset _ _ hb))
  have s4 : ∀ b ∈ (u.drop 8).take 2, b < 256 :=
    fun b hb => hu b (List.drop_subset _ _ (List.take_subset _ _ hb))
  have s5 : ∀ b ∈ u.drop 10, b < 256 := fun b hb => hu b (List.drop_subset _ _ hb)
  simp only [uuidToString, List.mem_append, List.mem_cons] at hc
  rcases hc with h | h | h | h | h | h | h | h | h
  · exact hexBytes_ascii _ s1 c h
  · omega
  · exact hexBytes_ascii _ s2 c h
  · omega
  · exact hexBytes_ascii _ s3 c h
  · omega
  · exact hexBytes_ascii _ s4 c h
  · omega
  · exact hexBytes_ascii _ s5 c h

theorem validUtf8Aux_of_ascii (l : List Nat) :
    ∀ fuel : Nat, l.length < fuel → (∀ c ∈ l, c ≤ 127) → validUtf8Aux fuel l = true := by
  induction l with
  | nil => intro fuel _ _; cases fuel <;> rfl
  | cons b tl ih =>
    intro fuel hfuel h
    cases fuel with
    | zero => simp at hfuel
    | succ f =>
      have hb : b ≤ 127 := h b (List.mem_cons_self _ _)
      rw [validUtf8Aux, if_pos hb]
      exact ih f (by simp at hfuel; omega) (fun c hc => h c (List.mem_cons_of_mem _ hc))

theorem validUtf8_of_ascii (l : List Nat) (h : ∀ c ∈ l, c ≤ 127) :
    validUtf8 l = true :=
  validUtf8Aux_of_ascii l (l.length + 1) (by omega) h

theorem uuid_groups_recompose (u : List Nat) :
    u.take 4 ++ ((u.drop 4).take 2 ++ ((u.drop 6).take 2 ++ ((u.drop 8).take 2 ++ u.drop 10)))
      = u := by
  have h8 : (u.drop 8).take 2 ++ u.drop 10 = u.drop 8 := by
    have h : u.drop 10 = (u.drop 8).drop 2 := by rw [List.drop_drop]
    rw [h, List.take_append_drop]
  have h6 : (u.drop 6).take 2 ++ u.drop 8 = u.drop 6 := by
    have h : u.drop 8 = (u.drop 6).drop 2 := by rw [List.drop_drop]
    rw [h, List.take_append_drop]
  have h4 : (u.drop 4).take 2 ++ u.drop 6 = u.drop 4 := by
    have h : u.drop 6 = (u.drop 4).drop 2 := by rw [List.drop_drop]
    rw [h, List.take_append_drop]
  rw [h8, h6, h4, List.take_append_drop]

theorem parseHyphenated_uuidToString (u : List Nat) (hlen : u.length = 16)
    (hu : ∀ b ∈ u, b < 256) : parseHyphenated (uuidToString u) = some u := by
  have t4 : (u.take 4).length = 4 := by simp [hlen]
  have t2a : ((u.drop 4).take 2).length = 2 := by simp [hlen]
  have t2b : ((u.drop 6).take 2).length = 2 := by simp [hlen]
  have t2c : ((u.drop 8).take 2).length = 2 := by simp [hlen]
  have t6 : (u.drop 10).length = 6 := by simp [hlen]
  have s1 : ∀ b ∈ u.take 4, b < 256 := fun b hb => hu b (List.take_subset _ _ hb)
  have s2 : ∀ b ∈ (u.drop 4).take 2, b < 256 :=
    fun b hb => hu b (List.drop_subset _ _ (List.take_subset _ _ hb))
  have s3 : ∀ b ∈ (u.drop 6).take 2, b < 256 :=
    fun b hb => hu b (List.drop_subset _ _ (List.take_subset _ _ hb))
  have s4 : ∀ b ∈ (u.drop 8).take 2, b < 256 :=
    fun b hb => hu b (List.drop_subset _ _ (List.take_subset _ _ hb))
  have s5 : ∀ b ∈ u.drop 10, b < 256 := fun b hb => hu b (List.drop_subset _ _ hb)
  unfold parseHyphenated uuidToString
  rw [show hexBytes (u.drop 10) = hexBytes (u.drop 10) ++ [] from (List.append_nil _).symm]
  rw [parseHexPairs_of_len 4 (u.take 4) _ t4 s1]
  simp only [Option.some_bind, expectDash]
  rw [parseHexPairs_of_len 2 ((u.drop 4).take 2) _ t2a s2]
  simp only [Option.some_bind, expectDash]
  rw [parseHexPairs_of_len 2 ((u.drop 6).take 2) _ t2b s3]
  simp only [Option.some_bind, expectDash]
  rw [parseHexPairs_of_len 2 ((u.drop 8).take 2) _ t2c s4]
  simp only [Option.some_bind, expectDash]
  rw [parseHexPairs_of_len 6 (u.drop 10) _ t6 s5]
  simp only []
  rw [uuid_groups_recompose u]

end FlightSql

namespace FlightSql

theorem decodeVarint_single (b : Nat) (rest : List Nat) (hb : b < 128) :
    decodeVarint (b :: rest) = some (b, rest) := by
  have hmod : b % 256 = b := Nat.mod_eq_of_lt (by omega)
  unfold decodeVarint
  rw [show (10 : Nat) = 9 + 1 from rfl]
  simp only [decodeVarintAux]
  simp [hmod, hb]

theorem decodeKey_byte (b : Nat) (rest : List Nat) (hb : b < 128) (hwt : b % 8 < 6)
    (htag : 0 < b / 8) : decodeKey (b :: rest) = some (b / 8, b % 8, rest) := by
  have h1 : ¬ b > 4294967295 := by omega
  have h2 : ¬ 6 ≤ b % 8 := by omega
  have h3 : ¬ b / 8 = 0 := by omega
  simp [decodeKey, decodeVarint_single b rest hb, h1, h2, h3]

theorem decodeKey_ten (rest : List Nat) : decodeKey (10 :: rest) = some (1, 2, rest) := by
  have h := decodeKey_byte 10 rest (by omega) (by omega) (by omega)
  norm_num at h
  exact h

theorem decodeKey_eighteen (rest : List Nat) :
    decodeKey (18 :: rest) = some (2, 2, rest) := by
  have h := decodeKey_byte 18 rest (by omega) (by omega) (by omega)
  norm_num at h
  exact h

theorem readLenDelim_exact (n : Nat) (content rest : List Nat) (hn : content.length = n)
    (hlt : n < 128) : readLenDelim (n :: (content ++ rest)) = some (content, rest) := by
  have hle : n ≤ (content ++ rest).length := by
    rw [List.length_append]
    omega
  unfold readLenDelim
  rw [decodeVarint_single n _ hlt]
  subst hn
  simp [hle, List.take_left, List.drop_left]

theorem mergeAnyFields_nil (fuel : Nat) (m : AnyMsg) :
    mergeAnyFields fuel [] m = some m := by
  cases fuel <;> rfl

theorem mergeFetchResultsFields_nil (fuel : Nat) (m : FetchResults) :
    mergeFetchResultsFields fuel [] m = some m := by
  cases fuel <;> rfl

theorem mergeAnyFields_urlStep (fuel n : Nat) (content rest : List Nat) (m : AnyMsg)
    (hn : content.length = n) (hlt : n < 128) (hutf : validUtf8 content = true) :
    mergeAnyFields (fuel + 1) (10 :: n :: (content ++ rest)) m
      = mergeAnyFields fuel rest { m with type_url := content } := by
  simp [mergeAnyFields, decodeKey_ten, readLenDelim_exact n content rest hn hlt, hutf]

theorem mergeAnyFields_valueStepLast (fuel n : Nat) (content : List Nat) (m : AnyMsg)
    (hn : content.length = n) (hlt : n < 128) :
    mergeAnyFields (fuel + 1) (18 :: n :: content) m
      = mergeAnyFields fuel [] { m with value := content } := by
  have h : readLenDelim (n :: content) = some (content, []) := by
    have h2 := readLenDelim_exact n content [] hn hlt
    simpa using h2
  simp [mergeAnyFields, decodeKey_eighteen, h]

theorem mergeFetchFields_handleStepLast (fuel n : Nat) (content : List Nat)
    (m : FetchResults) (hn : content.length = n) (hlt : n < 128)
    (hutf : validUtf8 content = true) :
    mergeFetchResultsFields (fuel + 1) (10 :: n :: content) m
      = mergeFetchResultsFields fuel [] { m with handle := content } := by
  have h : readLenDelim (n :: content) = some (content, []) := by
    have h2 := readLenDelim_exact n content [] hn hlt
    simpa using h2
  simp [mergeFetchResultsFields, decodeKey_ten, h, hutf]

theorem encodeVarint_small (n : Nat) (h : n < 128) : encodeVarint n = [n] := by
  unfold encodeVarint
  rw [show (10 : Nat) = 9 + 1 from rfl]
  simp only [encodeVarintAux]
  simp [h]

theorem fetchResultsEncode_shape (s : List Nat) (hs : s.length = 36) :
    fetchResultsEncode s = 10 :: 36 :: s := by
  have hne : s ≠ [] := by
    intro h
    subst h
    simp at hs
  simp [fetchResultsEncode, hne, encodeLenField, hs, encodeVarint_small]

theorem mintTicket_shape (u : List Nat) (hu : u.length = 16) :
    mintTicket u
      = 10 :: 58 :: (fetchResultsTypeUrl ++ (18 :: 38 :: (10 :: 36 :: uuidToString u))) := by
  have hs36 : (uuidToString u).length = 36 := uuidToString_length u hu
  have hv := fetchResultsEncode_shape (uuidToString u) hs36
  have hTne : fetchResultsTypeUrl ≠ [] := by decide
  have hT58 : fetchResultsTypeUrl.length = 58 := by decide
  simp [mintTicket, anyEncode, hv, hTne, hT58, encodeLenField, encodeVarint_small, hs36]

theorem mintTicket_length (u : List Nat) (hu : u.length = 16) :
    (mintTicket u).length = 100 := by
  have hT58 : fetchResultsTypeUrl.length = 58 := by decide
  rw [mintTicket_shape u hu]
  simp [uuidToString_length u hu, hT58]

theorem decodeTicketHandle_mintTicket (u : List Nat) (hlen : u.length = 16)
    (hu : ∀ b ∈ u, b < 256) : decodeTicketHandle (mintTicket u) = Outcome.ok u := by
  have hs36 : (uuidToString u).length = 36 := uuidToString_length u hlen
  have hascii := uuidToString_ascii u hu
  have hutf : validUtf8 (uuidToString u) = true := validUtf8_of_ascii _ hascii
  have hT58 : fetchResultsTypeUrl.length = 58 := by decide
  have hTutf : validUtf8 fetchResultsTypeUrl = true := by decide
  have hany : anyDecode (mintTicket u)
      = some ⟨fetchResultsTypeUrl, 10 :: 36 :: uuidToString u⟩ := by
    unfold anyDecode
    rw [mintTicket_length u hlen, mintTicket_shape u hlen]
    rw [mergeAnyFields_urlStep 100 58 fetchResultsTypeUrl _ _ hT58 (by omega) hTutf]
    rw [show (100 : Nat) = 99 + 1 from rfl]
    rw [mergeAnyFields_valueStepLast 99 38 (10 :: 36 :: uuidToString u) _
      (by simp [hs36]) (by omega)]
    exact mergeAnyFields_nil 99 _
  have hfetch : fetchResultsDecode (10 :: 36 :: uuidToString u)
      = some ⟨uuidToString u⟩ := by
    unfold fetchResultsDecode
    have hl : (10 :: 36 :: uuidToString u).length = 38 := by simp [hs36]
    rw [hl]
    rw [mergeFetchFields_handleStepLast 38 36 (uuidToString u) _ hs36 (by omega) hutf]
    exact mergeFetchResultsFields_nil 38 _
  have hunpack : anyUnpackFetchResults ⟨fetchResultsTypeUrl, 10 :: 36 :: uuidToString u⟩
      = Except.ok (some ⟨uuidToString u⟩) := by
    unfold anyUnpackFetchResults
    rw [if_pos rfl, hfetch]
  have hparse : uuidTryParse (uuidToString u) = Except.ok u := by
    simp [uuidTryParse, hs36, parseHyphenated_uuidToString u hlen hu]
  simp [decodeTicketHandle, hany, hunpack, hparse]

/-- C2: the type-tagged `FetchResults` envelope minted by
`get_flight_info_prepared_statement` for any 16-byte handle decodes, along the
`do_get_fallback` path, to exactly the same handle; consequently a fetch
presenting that ticket resolves the very registry entry stored under the
handle (second conjunct, for any session, registry and executor). -/
theorem ticket_roundtrip :
    ∀ (u : List Nat), u.length = 16 → (∀ b ∈ u, b < 256) →
    decodeTicketHandle (mintTicket u) = Outcome.ok u
    ∧ (∀ {E S : Type} (sessions : Sessions) (tok : Option String) (sess : Session)
        (reg : Registry E) (entry : E) (execute_plan : Session → E → Except String S)
        (st : S),
        get_session sessions tok = .ok sess → regGet reg u = some entry →
        execute_plan sess entry = .ok st →
        do_get_fallback sessions tok (mintTicket u) reg execute_plan = Outcome.ok st) := by
  intro u hlen hu
  have hdec := decodeTicketHandle_mintTicket u hlen hu
  refine ⟨hdec, ?_⟩
  intro E S sessions tok sess reg entry execute_plan st hs hg he
  simp [do_get_fallback, hs, hdec, hg, he]

/-- Witness for C2 at the concrete handle with bytes 0..15. -/
theorem ticket_roundtrip_witness :
    decodeTicketHandle (mintTicket handle1) = Outcome.ok handle1
    ∧ do_get_fallback sessions0 (some "t") (mintTicket handle1) [(handle1, 7)] exec0
        = Outcome.ok 7 :=
  ⟨(ticket_roundtrip handle1 (by decide) (by decide)).1,
   (ticket_roundtrip handle1 (by decide) (by decide)).2 sessions0 (some "t") ⟨"t"⟩
     [(handle1, 7)] 7 exec0 7 rfl rfl rfl⟩

end FlightSql

namespace Federated

theorem block_match_rule_first {SchemaT ChunkT : Type} (eS : SchemaT) (eC : ChunkT)
    (q : String) :
    ∀ (rules : List ((String → Bool) × Option (SchemaT × ChunkT))) (k : Nat)
      (pat : String → Bool) (data : Option (SchemaT × ChunkT)),
    rules.get? k = some (pat, data) → pat q = true →
    (∀ i pd, i < k → rules.get? i = some pd → pd.1 q = false) →
    block_match_rule eS eC q rules
      = some (match data with | none => (eS, eC) | some sc => sc) := by
  intro rules
  induction rules with
  | nil =>
    intro k pat data hget
    simp at hget
  | cons r rest ih =>
    intro k pat data hget hpat hmin
    cases k with
    | zero =>
      simp only [List.get?] at hget
      injection hget with hr
      subst hr
      rcases data with _ | ⟨s, c⟩ <;> (rw [block_match_rule.eq_def]; simp [hpat])
    | succ k' =>
      obtain ⟨rp, rd⟩ := r
      have h0 : rp q = false := by
        have h := hmin 0 (rp, rd) (Nat.succ_pos k') rfl
        simpa using h
      simp only [List.get?] at hget
      rw [block_match_rule.eq_def]
      simp only [h0]
      simp only [Bool.false_eq_true, if_false]
      exact ih k' pat data hget hpat
        (fun i pd hi hg => hmin (i + 1) pd (Nat.succ_lt_succ hi) hg)

theorem lazy_block_match_rule_first {SchemaT ChunkT : Type} (eS : SchemaT) (eC : ChunkT)
    (q : String) :
    ∀ (rules : List ((String → Bool) × (String → Option (SchemaT × ChunkT)))) (k : Nat)
      (pat : String → Bool) (func : String → Option (SchemaT × ChunkT)),
    rules.get? k = some (pat, func) → pat q = true →
    (∀ i pd, i < k → rules.get? i = some pd → pd.1 q = false) →
    lazy_block_match_rule eS eC q rules
      = some (match func q with | none => (eS, eC) | some sc => sc) := by
  intro rules
  induction rules with
  | nil =>
    intro k pat func hget
    simp at hget
  | cons r rest ih =>
    intro k pat func hget hpat hmin
    cases k with
    | zero =>
      simp only [List.get?] at hget
      injection hget with hr
      subst hr
      rcases hq : func q with _ | ⟨s, c⟩ <;> (rw [lazy_block_match_rule.eq_def]; simp [hpat, hq])
    | succ k' =>
      obtain ⟨rp, rd⟩ := r
      have h0 : rp q = false := by
        have h := hmin 0 (rp, rd) (Nat.succ_pos k') rfl
        simpa using h
      simp only [List.get?] at hget
      rw [lazy_block_match_rule.eq_def]
      simp only [h0]
      simp only [Bool.false_eq_true, if_false]
      exact ih k' pat func hget hpat
        (fun i pd hi hg => hmin (i + 1) pd (Nat.succ_lt_succ hi) hg)

theorem block_match_rule_none_iff {SchemaT ChunkT : Type} (eS : SchemaT) (eC : ChunkT)
    (q : String) :
    ∀ (rules : List ((String → Bool) × Option (SchemaT × ChunkT))),
    (block_match_rule eS eC q rules = none ↔ ∀ r ∈ rules, r.1 q = false) := by
  intro rules
  induction rules with
  | nil => simp [block_match_rule]
  | cons r rest ih =>
    obtain ⟨rp, rd⟩ := r
    rw [block_match_rule.eq_def]
    cases hp : rp q with
    | false => simp [hp, ih]
    | true => rcases rd with _ | ⟨s, c⟩ <;> simp [hp]

theorem lazy_block_match_rule_none_iff {SchemaT ChunkT : Type} (eS : SchemaT) (eC : ChunkT)
    (q : String) :
    ∀ (rules : List ((String → Bool) × (String → Option (SchemaT × ChunkT)))),
    (lazy_block_match_rule eS eC q rules = none ↔ ∀ r ∈ rules, r.1 q = false) := by
  intro rules
  induction rules with
  | nil => simp [lazy_block_match_rule]
  | cons r rest ih =>
    obtain ⟨rp, rd⟩ := r
    rw [lazy_block_match_rule.eq_def]
    cases hp : rp q with
    | false => simp [hp, ih]
    | true => rcases hq : rd q with _ | ⟨s, c⟩ <;> simp [hp, hq]

/-- C10: both federated matchers implement first-match-wins over the rule list:
whenever rule `k` matches the query and every earlier rule does not, the
result is rule `k`'s rendered data — its (schema, batch) when present (for
the lazy matcher, the function's output on the query), and the empty schema
with the empty batch when the rule carries no data; and the matchers return
`none` exactly when no rule's pattern matches. -/
theorem federated_first_match_wins {SchemaT ChunkT : Type} (eS : SchemaT) (eC : ChunkT)
    (q : String) :
    (∀ (rules : List ((String → Bool) × Option (SchemaT × ChunkT))) k pat data,
      rules.get? k = some (pat, data) → pat q = true →
      (∀ i pd, i < k → rules.get? i = some pd → pd.1 q = false) →
      block_match_rule eS eC q rules
        = some (match data with | none => (eS, eC) | some sc => sc))
    ∧ (∀ (rules : List ((String → Bool) × (String → Option (SchemaT × ChunkT)))) k pat func,
      rules.get? k = some (pat, func) → pat q = true →
      (∀ i pd, i < k → rules.get? i = some pd → pd.1 q = false) →
      lazy_block_match_rule eS eC q rules
        = some (match func q with | none => (eS, eC) | some sc => sc))
    ∧ (∀ rules : List ((String → Bool) × Option (SchemaT × ChunkT)),
      block_match_rule eS eC q rules = none ↔ ∀ r ∈ rules, r.1 q = false)
    ∧ (∀ rules : List ((String → Bool) × (String → Option (SchemaT × ChunkT))),
      lazy_block_match_rule eS eC q rules = none ↔ ∀ r ∈ rules, r.1 q = false) :=
  ⟨block_match_rule_first eS eC q, lazy_block_match_rule_first eS eC q,
   block_match_rule_none_iff eS eC q, lazy_block_match_rule_none_iff eS eC q⟩

/-- Witness for C10 at concrete rule lists over `Nat` schemas and chunks. -/
theorem federated_first_match_wins_witness :
    block_match_rule (0 : Nat) (0 : Nat) "q" [(fun _ => true, some (1, 2))] = some (1, 2)
    ∧ lazy_block_match_rule (0 : Nat) (0 : Nat) "q" [(fun _ => true, fun _ => none)]
        = some (0, 0)
    ∧ block_match_rule (0 : Nat) (0 : Nat) "q"
        ([] : List ((String → Bool) × Option (Nat × Nat))) = none :=
  ⟨(federated_first_match_wins (0 : Nat) (0 : Nat) "q").1
     [(fun _ => true, some (1, 2))] 0 (fun _ => true) (some (1, 2)) rfl rfl
     (fun i _ hi _ => absurd hi (Nat.not_lt_zero i)),
   (federated_first_match_wins (0 : Nat) (0 : Nat) "q").2.1
     [(fun _ => true, fun _ => none)] 0 (fun _ => true) (fun _ => none) rfl rfl
     (fun i _ hi _ => absurd hi (Nat.not_lt_zero i)),
   ((federated_first_match_wins (0 : Nat) (0 : Nat) "q").2.2.1 []).2
     (fun r hr => absurd hr (List.not_mem_nil r))⟩

end Federated
